import Mathlib

/-!
Verification of `src/vendor/winapi/src/shared/dinputd.rs`.

The source file is a static table of eight GUID constants declared with the
`DEFINE_GUID!` macro of the winapi crate, which expands to
`pub const NAME: GUID = GUID { Data1, Data2, Data3, Data4 }` where `GUID` is
the Windows structure with a 32-bit field, two 16-bit fields and eight bytes.
We embed the structure and each declared constant with the exact values of the
source, plus the declaration table in source order, and a name-based lookup.
-/

/-- The Windows `GUID` structure: `Data1 : u32`, `Data2 : u16`, `Data3 : u16`,
`Data4 : [u8; 8]`.  Machine integers are embedded as `Nat`; the width bounds
are proved separately (claim C6) rather than baked into the type. -/
structure GUID where
  Data1 : Nat
  Data2 : Nat
  Data3 : Nat
  Data4 : List Nat
deriving DecidableEq

/-- Source line 6: `DEFINE_GUID!{IID_IDirectInputEffectDriver, ...}`. -/
def IID_IDirectInputEffectDriver : GUID :=
  ⟨0x02538130, 0x898f, 0x11d0, [0x9a, 0xd0, 0x00, 0xa0, 0xc9, 0xa0, 0x6e, 0x35]⟩

/-- Source line 8: `DEFINE_GUID!{IID_IDirectInputJoyConfig, ...}`. -/
def IID_IDirectInputJoyConfig : GUID :=
  ⟨0x1de12ab1, 0xc9f5, 0x11cf, [0xbf, 0xc7, 0x44, 0x45, 0x53, 0x54, 0x00, 0x00]⟩

/-- Source line 10: `DEFINE_GUID!{IID_IDirectInputPIDDriver, ...}`. -/
def IID_IDirectInputPIDDriver : GUID :=
  ⟨0xeec6993a, 0xb3fd, 0x11d2, [0xa9, 0x16, 0x00, 0xc0, 0x4f, 0xb9, 0x86, 0x38]⟩

/-- Source line 12: `DEFINE_GUID!{IID_IDirectInputJoyConfig8, ...}`. -/
def IID_IDirectInputJoyConfig8 : GUID :=
  ⟨0xeb0d7dfa, 0x1990, 0x4f27, [0xb4, 0xd6, 0xed, 0xf2, 0xee, 0xc4, 0xa4, 0x4c]⟩

/-- Source line 14: `DEFINE_GUID!{GUID_KeyboardClass, ...}`. -/
def GUID_KeyboardClass : GUID :=
  ⟨0x4d36e96b, 0xe325, 0x11ce, [0xbf, 0xc1, 0x08, 0x00, 0x2b, 0xe1, 0x03, 0x18]⟩

/-- Source line 16: `DEFINE_GUID!{GUID_MediaClass, ...}`. -/
def GUID_MediaClass : GUID :=
  ⟨0x4d36e96c, 0xe325, 0x11ce, [0xbf, 0xc1, 0x08, 0x00, 0x2b, 0xe1, 0x03, 0x18]⟩

/-- Source line 18: `DEFINE_GUID!{GUID_MouseClass, ...}`. -/
def GUID_MouseClass : GUID :=
  ⟨0x4d36e96f, 0xe325, 0x11ce, [0xbf, 0xc1, 0x08, 0x00, 0x2b, 0xe1, 0x03, 0x18]⟩

/-- Source line 20: `DEFINE_GUID!{GUID_HIDClass, ...}`. -/
def GUID_HIDClass : GUID :=
  ⟨0x745a17a0, 0x74d3, 0x11d0, [0xb6, 0xfe, 0x00, 0xa0, 0xc9, 0x0f, 0x57, 0xda]⟩

/-- The declaration table of `dinputd.rs`: the eight `DEFINE_GUID!` invocations
in source order, each pairing the declared identifier name with its value. -/
def dinputd_guids : List (String × GUID) :=
  [ ("IID_IDirectInputEffectDriver", IID_IDirectInputEffectDriver)
  , ("IID_IDirectInputJoyConfig",    IID_IDirectInputJoyConfig)
  , ("IID_IDirectInputPIDDriver",    IID_IDirectInputPIDDriver)
  , ("IID_IDirectInputJoyConfig8",   IID_IDirectInputJoyConfig8)
  , ("GUID_KeyboardClass",           GUID_KeyboardClass)
  , ("GUID_MediaClass",              GUID_MediaClass)
  , ("GUID_MouseClass",              GUID_MouseClass)
  , ("GUID_HIDClass",                GUID_HIDClass) ]

/-- The declared identifier names, in source order. -/
def declaredNames : List String := dinputd_guids.map Prod.fst

/-- Name-based lookup of a declared constant: the sole operation the spec
grants a consumer of the table.  Resolution of a Rust `pub const` by name
cannot fail for a declared name and is embedded as a total function into
`Option GUID`, `none` marking an undeclared name. -/
def lookup (name : String) : Option GUID :=
  (dinputd_guids.find? (fun p => p.1 == name)).map Prod.snd

/-- Modelled from the spec: the canonical GUID values published in the Windows
SDK headers (`dinputd.h` for the four interface identifiers, `devguid.h` for
the four device-class identifiers), which are not part of this repository.
Each entry is transcribed from the published header definition of that
identifier name. -/
def canonicalSDK : List (String × GUID) :=
  [ ("IID_IDirectInputEffectDriver",
      ⟨0x02538130, 0x898f, 0x11d0, [0x9a, 0xd0, 0x00, 0xa0, 0xc9, 0xa0, 0x6e, 0x35]⟩)
  , ("IID_IDirectInputJoyConfig",
      ⟨0x1de12ab1, 0xc9f5, 0x11cf, [0xbf, 0xc7, 0x44, 0x45, 0x53, 0x54, 0x00, 0x00]⟩)
  , ("IID_IDirectInputPIDDriver",
      ⟨0xeec6993a, 0xb3fd, 0x11d2, [0xa9, 0x16, 0x00, 0xc0, 0x4f, 0xb9, 0x86, 0x38]⟩)
  , ("IID_IDirectInputJoyConfig8",
      ⟨0xeb0d7dfa, 0x1990, 0x4f27, [0xb4, 0xd6, 0xed, 0xf2, 0xee, 0xc4, 0xa4, 0x4c]⟩)
  , ("GUID_KeyboardClass",
      ⟨0x4d36e96b, 0xe325, 0x11ce, [0xbf, 0xc1, 0x08, 0x00, 0x2b, 0xe1, 0x03, 0x18]⟩)
  , ("GUID_MediaClass",
      ⟨0x4d36e96c, 0xe325, 0x11ce, [0xbf, 0xc1, 0x08, 0x00, 0x2b, 0xe1, 0x03, 0x18]⟩)
  , ("GUID_MouseClass",
      ⟨0x4d36e96f, 0xe325, 0x11ce, [0xbf, 0xc1, 0x08, 0x00, 0x2b, 0xe1, 0x03, 0x18]⟩)
  , ("GUID_HIDClass",
      ⟨0x745a17a0, 0x74d3, 0x11d0, [0xb6, 0xfe, 0x00, 0xa0, 0xc9, 0x0f, 0x57, 0xda]⟩) ]

/-- C1: every one of the eight declared constants carries, byte for byte, the
canonical GUID value published for its identifier name in the Windows SDK
headers: the declaration table equals the canonical SDK table, names and
values alike. -/
theorem dinputd_matches_canonical_sdk : dinputd_guids = canonicalSDK := by
  decide

/-- C2: `IID_IDirectInputJoyConfig8` is bound to the GUID
`{EB0D7DFA-1990-4F27-B4D6-EDF2EEC4A44C}`, with fields
`(0xeb0d7dfa, 0x1990, 0x4f27, [0xb4, 0xd6, 0xed, 0xf2, 0xee, 0xc4, 0xa4, 0x4c])`. -/
theorem iid_idirectinputjoyconfig8_value :
    IID_IDirectInputJoyConfig8 =
      ⟨0xeb0d7dfa, 0x1990, 0x4f27, [0xb4, 0xd6, 0xed, 0xf2, 0xee, 0xc4, 0xa4, 0x4c]⟩ := by
  decide

/-- C3: `GUID_HIDClass` is bound to the GUID
`{745A17A0-74D3-11D0-B6FE-00A0C90F57DA}`, with fields
`(0x745a17a0, 0x74d3, 0x11d0, [0xb6, 0xfe, 0x00, 0xa0, 0xc9, 0x0f, 0x57, 0xda])`. -/
theorem guid_hidclass_value :
    GUID_HIDClass =
      ⟨0x745a17a0, 0x74d3, 0x11d0, [0xb6, 0xfe, 0x00, 0xa0, 0xc9, 0x0f, 0x57, 0xda]⟩ := by
  decide

/-- C4: the name-to-value mapping is injective: the GUID values of the eight
declared constants are pairwise unequal. -/
theorem dinputd_values_pairwise_distinct :
    (dinputd_guids.map Prod.snd).Pairwise (· ≠ ·) := by
  decide

/-- C5: the set of declared constant names is exactly the eight names of the
source file, none added, removed or renamed. -/
theorem declared_names_exact :
    declaredNames =
      [ "IID_IDirectInputEffectDriver", "IID_IDirectInputJoyConfig"
      , "IID_IDirectInputPIDDriver", "IID_IDirectInputJoyConfig8"
      , "GUID_KeyboardClass", "GUID_MediaClass"
      , "GUID_MouseClass", "GUID_HIDClass" ] := by
  decide

/-- C6: every declared value fits the 128-bit four-field layout: the first
field is below `2^32`, the second and third below `2^16`, the trailing group
holds exactly eight components each below `2^8` — 32 + 16 + 16 + 8·8 = 128
bits in all. -/
theorem dinputd_values_well_formed :
    ∀ p ∈ dinputd_guids,
      p.2.Data1 < 2 ^ 32 ∧ p.2.Data2 < 2 ^ 16 ∧ p.2.Data3 < 2 ^ 16 ∧
      p.2.Data4.length = 8 ∧ ∀ b ∈ p.2.Data4, b < 2 ^ 8 := by
  decide

/-- C6 witness: the layout bounds hold at the concrete entry
`GUID_HIDClass` of the table. -/
theorem dinputd_values_well_formed_witness :
    GUID_HIDClass.Data1 < 2 ^ 32 ∧ GUID_HIDClass.Data2 < 2 ^ 16 ∧
    GUID_HIDClass.Data3 < 2 ^ 16 ∧ GUID_HIDClass.Data4.length = 8 ∧
    ∀ b ∈ GUID_HIDClass.Data4, b < 2 ^ 8 :=
  dinputd_values_well_formed ("GUID_HIDClass", GUID_HIDClass) (by decide)

/-- C7: lookup of a constant is deterministic: two evaluations of the lookup
at the same name can only yield the same value — the table is a fixed,
immutable constant of the embedding and no operation mutates it. -/
theorem lookup_deterministic (n : String) (g₁ g₂ : GUID)
    (h₁ : lookup n = some g₁) (h₂ : lookup n = some g₂) : g₁ = g₂ := by
  rw [h₁] at h₂
  exact Option.some.inj h₂

/-- C7 witness: determinism instantiated at the concrete name
`IID_IDirectInputPIDDriver`. -/
theorem lookup_deterministic_witness :
    IID_IDirectInputPIDDriver = IID_IDirectInputPIDDriver :=
  lookup_deterministic "IID_IDirectInputPIDDriver"
    IID_IDirectInputPIDDriver IID_IDirectInputPIDDriver (by decide) (by decide)

/-- C8: lookup of a declared constant cannot fail: for every one of the eight
declared names, `lookup` returns a value, with no error branch taken. -/
theorem lookup_total_on_declared :
    ∀ n ∈ declaredNames, (lookup n).isSome = true := by
  decide

/-- C8 witness: lookup succeeds at the concrete declared name
`GUID_MouseClass`. -/
theorem lookup_total_on_declared_witness :
    (lookup "GUID_MouseClass").isSome = true :=
  lookup_total_on_declared "GUID_MouseClass" (by decide)

/-- C9: `GUID_KeyboardClass`, `GUID_MediaClass` and `GUID_MouseClass` agree in
every field but the first: all three share `Data2 = 0xe325`, `Data3 = 0x11ce`
and `Data4 = [0xbf, 0xc1, 0x08, 0x00, 0x2b, 0xe1, 0x03, 0x18]`, and their
first fields are `0x4d36e96b`, `0x4d36e96c` and `0x4d36e96f` respectively. -/
theorem device_class_guids_share_suffix :
    GUID_KeyboardClass.Data2 = 0xe325 ∧ GUID_MediaClass.Data2 = 0xe325 ∧
    GUID_MouseClass.Data2 = 0xe325 ∧
    GUID_KeyboardClass.Data3 = 0x11ce ∧ GUID_MediaClass.Data3 = 0x11ce ∧
    GUID_MouseClass.Data3 = 0x11ce ∧
    GUID_KeyboardClass.Data4 = [0xbf, 0xc1, 0x08, 0x00, 0x2b, 0xe1, 0x03, 0x18] ∧
    GUID_MediaClass.Data4 = [0xbf, 0xc1, 0x08, 0x00, 0x2b, 0xe1, 0x03, 0x18] ∧
    GUID_MouseClass.Data4 = [0xbf, 0xc1, 0x08, 0x00, 0x2b, 0xe1, 0x03, 0x18] ∧
    GUID_KeyboardClass.Data1 = 0x4d36e96b ∧ GUID_MediaClass.Data1 = 0x4d36e96c ∧
    GUID_MouseClass.Data1 = 0x4d36e96f := by
  decide

/-- C10: the eight constants are already pairwise distinguished by the first
32-bit field alone: the `Data1` fields of the table's entries are pairwise
unequal, so agreement on `Data1` forces the same entry. -/
theorem dinputd_data1_pairwise_distinct :
    (dinputd_guids.map (fun p => p.2.Data1)).Pairwise (· ≠ ·) := by
  decide
